import Mathlib

/-!
Verification of the per-row derivation engine of the GridManagement
repository (`server/server.js`), shallowly embedded in Lean 4.

Modelling decisions, all taken from the source:

* JavaScript numbers are modelled as `ℚ` (the arithmetic used by the
  engine is +, -, *, / on small decimal values).
* `battery_percent` may arrive as a number, a string, or be missing.
  A string value is modelled by the two numeric readings JavaScript
  gives it: its `parseFloat` result (used at the normalization step,
  server.js line 120) and its `Number` coercion (used by the later
  `<`/`>` comparisons); `none` stands for NaN, for which every
  comparison is false.  A missing field (`undefined`) also compares
  false everywhere.
* `grid_status` is kept as a string, exactly as the server compares it
  ("normal", "power off", "voltage fluctuation" — note the spaces; the
  client `App.jsx` and the spec §3 use the underscored spellings
  `power_off` / `voltage_fluctuation`).
* `power_source` can be left undefined by the server (no branch
  assigns it), hence `Option PowerSource`.
* `estimated_battery_backup_time` is `Option ℚ`; `none` stands for the
  NaN the server produces when `battery_percent` does not coerce to a
  number.
* The alert strings pushed by the server are modelled as an inductive
  type, one constructor per push site; the server finally joins them
  with ", ", which we keep as the ordered list.
* The module-level mutable variables `currentRowIndex`,
  `batteryDischargeCycles`, `lastBatteryAction` form `SessionState`,
  threaded explicitly.
-/

namespace GridManagement

/-- A JavaScript value stored in the `battery_percent` column.
`str pf nc` is a string whose `parseFloat` reading is `pf` and whose
`Number` coercion is `nc` (`none` = NaN); `missing` is an absent field. -/
inductive BatVal where
  | num (q : ℚ)
  | str (pf : Option ℚ) (nc : Option ℚ)
  | missing
deriving DecidableEq, Repr

/-- The numeric reading JavaScript uses when a `BatVal` appears in a
`<` or `>` comparison or in arithmetic (`none` = NaN). -/
def BatVal.toNum : BatVal → Option ℚ
  | .num q => some q
  | .str _ nc => nc
  | .missing => none

/-- JavaScript `v < c` (NaN compares false). -/
def bvLt (v : BatVal) (c : ℚ) : Bool :=
  match v.toNum with
  | some q => decide (q < c)
  | none => false

/-- JavaScript `v > c` (NaN compares false). -/
def bvGt (v : BatVal) (c : ℚ) : Bool :=
  match v.toNum with
  | some q => decide (c < q)
  | none => false

/-- The five power-source labels the server can assign. -/
inductive PowerSource where
  | Solar
  | Grid
  | SolarGrid
  | SolarBattery
  | Battery
deriving DecidableEq, Repr

/-- Battery actions assigned by the server. -/
inductive BatteryAction where
  | Charging
  | Discharging
  | Idle
deriving DecidableEq, Repr

/-- The alert strings the server pushes, one constructor per push site.
`batteryLow v` carries the (post-normalization) battery value the
server concatenates into "Battery Low: ...%". -/
inductive Alert where
  | gridUnavailableSolarOnly
  | poweringFromBattery
  | heavyOnSolarBackup
  | switchedToBattery
  | heavyOnBatteryBackup
  | batteryLow (v : BatVal)
deriving DecidableEq, Repr

/-- One input record, in the shape `sheet_to_json` hands to
`processRowData`. -/
structure RawRow where
  timestamp : String
  is_daytime : Bool
  solar_input_watts : ℚ
  grid_status : String
  household_power_demand_watts : ℚ
  heavy_appliance_active : Bool
  ambient_temperature_celsius : ℚ
  weather_condition : String
  battery_percent : BatVal
deriving DecidableEq, Repr

/-- The module-level mutable state of server.js (lines 17-19):
`currentRowIndex`, `batteryDischargeCycles`, `lastBatteryAction`
(initially `null`). -/
structure SessionState where
  currentRowIndex : ℕ
  batteryDischargeCycles : ℕ
  lastBatteryAction : Option BatteryAction
deriving DecidableEq, Repr

/-- The initial state of the three module-level variables. -/
def initialState : SessionState := ⟨0, 0, none⟩

/-- The grid-status strings the server's degraded-grid tests match
(server.js lines 73-74, 92-93, 163): note the spaces. -/
def gridDegraded (g : String) : Bool :=
  g == "power off" || g == "voltage fluctuation"

/-- Step 1 of `processRowData`: the `is_daytime` / `grid_status`
branching (server.js lines 64-113) that assigns `power_source` and
pushes the grid-related alerts.  No branch assigns `power_source` for
an unrecognized `grid_status`, hence the `none` results.  The second
nighttime `power off` test (line 103) is dead: the preceding
`else if` already matched that string. -/
def classifyPowerSource (r : RawRow) : Option PowerSource × List Alert :=
  if r.is_daytime then
    if r.grid_status == "normal" then
      if r.household_power_demand_watts ≤ r.solar_input_watts then
        (some .Solar, [])
      else
        (some .SolarGrid, [])
    else if gridDegraded r.grid_status then
      let base :=
        if r.household_power_demand_watts ≤ r.solar_input_watts then
          (some PowerSource.Solar, [Alert.gridUnavailableSolarOnly])
        else
          (some PowerSource.SolarBattery, [Alert.poweringFromBattery])
      (base.1, base.2 ++ if r.heavy_appliance_active then [Alert.heavyOnSolarBackup] else [])
    else
      (none, [])
  else
    if r.grid_status == "normal" then
      (some .Grid, [])
    else if gridDegraded r.grid_status then
      (some .Battery,
        [Alert.switchedToBattery] ++
          if r.heavy_appliance_active then [Alert.heavyOnBatteryBackup] else [])
    else
      (none, [])

/-- The battery-percent block of `processRowData` (server.js lines
117-130): only a string value is parsed, and only a `parseFloat`
result `< 1` is scaled by 100 and written back into
`battery_percent`; a number passes through untouched, and every other
value keeps its original coercion behaviour. -/
def normalizeBattery : BatVal → BatVal
  | .num q => .num q
  | .str (some p) nc => if p < 1 then .num (p * 100) else .str (some p) nc
  | .str none nc => .str none nc
  | .missing => .missing

/-- Step 2 of `processRowData` (server.js lines 141-173): the
battery-action cascade, returning the action together with the updated
discharge-cycle counter.  Only the first branch (power source Battery
or Solar+Battery) increments the counter; the fourth branch assigns
`Discharging` without touching it. -/
def decideBatteryAction (r : RawRow) (ps : Option PowerSource) (bp : BatVal)
    (last : Option BatteryAction) (cycles : ℕ) : BatteryAction × ℕ :=
  if ps = some .Battery ∨ ps = some .SolarBattery then
    (.Discharging, if last ≠ some .Discharging then cycles + 1 else cycles)
  else if r.is_daytime ∧ r.household_power_demand_watts < r.solar_input_watts ∧ bvLt bp 100 then
    (.Charging, cycles)
  else if r.grid_status == "normal" ∧ bvLt bp 100 then
    (.Charging, cycles)
  else if gridDegraded r.grid_status ∧ bvGt bp 28 then
    (.Discharging, cycles)
  else
    (.Idle, cycles)

/-- The fixed 20-second slice as a fraction of an hour (server.js
line 184). -/
def hourFraction : ℚ := 20 / 3600

/-- Step 5 of `processRowData` (server.js lines 211-218):
`((battery_percent / 100) * BATTERY_CAPACITY_KWH) / current_load_kW`
when the load is positive, else 0; NaN (`none`) when the battery value
does not coerce to a number. -/
def backupTime (bp : BatVal) (demand : ℚ) : Option ℚ :=
  if 0 < demand / 1000 then
    match bp.toNum with
    | some q => some (q / 100 * 10 / (demand / 1000))
    | none => none
  else
    some 0

/-- The record `processRowData` returns (server.js lines 221-233), the
raw row spread first and the derived fields after it. -/
structure ProcessedRow where
  raw : RawRow
  power_source : Option PowerSource
  battery_action : BatteryAction
  battery_efficiency : ℚ
  solar_contribution : ℚ
  grid_contribution : ℚ
  battery_contribution : ℚ
  total_consumption_kwh : ℚ
  estimated_battery_backup_time : Option ℚ
  alerts : List Alert
  discharge_cycles : ℕ
deriving DecidableEq, Repr

/-- `processRowData` (server.js lines 37-236), with the two mutable
variables it reads and writes (`batteryDischargeCycles`,
`lastBatteryAction`) threaded through `SessionState`; the row cursor
is untouched here. -/
def processRowData (r : RawRow) (s : SessionState) : ProcessedRow × SessionState :=
  let psa := classifyPowerSource r
  let bp := normalizeBattery r.battery_percent
  let alerts := psa.2 ++ (if bvLt bp 28 then [Alert.batteryLow bp] else [])
  let ac := decideBatteryAction r psa.1 bp s.lastBatteryAction s.batteryDischargeCycles
  let battery_efficiency : ℚ := 100 - (ac.2 : ℚ) * (2 / 10)
  let total := r.household_power_demand_watts * hourFraction / 1000
  let contrib : ℚ × ℚ × ℚ :=
    match psa.1 with
    | some .Solar => (total, 0, 0)
    | some .Grid => (0, total, 0)
    | some .SolarGrid =>
        (r.solar_input_watts * hourFraction / 1000,
         total - r.solar_input_watts * hourFraction / 1000, 0)
    | some .SolarBattery =>
        (r.solar_input_watts * hourFraction / 1000, 0,
         total - r.solar_input_watts * hourFraction / 1000)
    | some .Battery => (0, 0, total)
    | none => (0, 0, 0)
  (⟨r, psa.1, ac.1, battery_efficiency, contrib.1, contrib.2.1, contrib.2.2, total,
      backupTime bp r.household_power_demand_watts, alerts, ac.2⟩,
   { s with batteryDischargeCycles := ac.2, lastBatteryAction := some ac.1 })

/-- The `/api/data/next` endpoint (server.js lines 305-333): when the
cursor has reached the end of the data it reports done and changes
nothing; otherwise it classifies the row under the cursor and
increments the cursor. -/
def advance (data : List RawRow) (s : SessionState) :
    SessionState × Option ProcessedRow :=
  if h : s.currentRowIndex < data.length then
    let p := processRowData (data.get ⟨s.currentRowIndex, h⟩) s
    ({ p.2 with currentRowIndex := s.currentRowIndex + 1 }, some p.1)
  else
    (s, none)

/-- `advance` iterated `k` times, keeping only the state. -/
def iterateAdvance (data : List RawRow) : ℕ → SessionState → SessionState
  | 0, s => s
  | k + 1, s => iterateAdvance data k (advance data s).1

/-- A whole dataset processed row by row, collecting the annotated
rows in order together with the final state. -/
def processRows : List RawRow → SessionState → List ProcessedRow × SessionState
  | [], s => ([], s)
  | r :: rest, s =>
      let p := processRowData r s
      let q := processRows rest p.2
      (p.1 :: q.1, q.2)

/-- The counter reset performed by the `/api/uploads` endpoint
(server.js lines 294-296): `currentRowIndex = 0`,
`batteryDischargeCycles = 0`; `lastBatteryAction` is not assigned. -/
def resetOnUpload (s : SessionState) : SessionState :=
  { s with currentRowIndex := 0, batteryDischargeCycles := 0 }

/-- Whether an assigned power source draws on the battery (the guard
of the first battery-action branch). -/
def batSourced : Option PowerSource → Bool
  | some .Battery => true
  | some .SolarBattery => true
  | _ => false

/-- Number of maximal runs of `Discharging` that start inside the
given action sequence at a battery-sourced row, `prev` being the
action recorded just before the sequence.  A run "starts" at a row
whose action is `Discharging` while the preceding action was not. -/
def countBatRunStarts : Option BatteryAction → List (BatteryAction × Bool) → ℕ
  | _, [] => 0
  | prev, ab :: rest =>
      (if ab.1 = .Discharging ∧ prev ≠ some .Discharging ∧ ab.2 = true then 1 else 0) +
        countBatRunStarts (some ab.1) rest

/-- A row with the fields the classifier actually reads made explicit;
timestamp, temperature and weather are fixed since no rule reads them. -/
def mkRow (day : Bool) (g : String) (solar demand : ℚ) (heavy : Bool) (bp : BatVal) : RawRow :=
  ⟨"2024-01-01 00:00", day, solar, g, demand, heavy, 25, "Sunny", bp⟩

/-- JavaScript `a <= b` between numeric cells that may be malformed:
`none` is NaN (the `Number` coercion of a non-numeric cell), and any
comparison with NaN is false. -/
def jsLe (a b : Option ℚ) : Bool :=
  match a, b with
  | some x, some y => decide (x ≤ y)
  | _, _ => false

/-- JavaScript `a < b` between possibly-NaN numeric cells. -/
def jsLt (a b : Option ℚ) : Bool :=
  match a, b with
  | some x, some y => decide (x < y)
  | _, _ => false

/-- JavaScript subtraction with NaN propagation. -/
def jsSub (a b : Option ℚ) : Option ℚ :=
  match a, b with
  | some x, some y => some (x - y)
  | _, _ => none

/-- `watts * hourFraction / 1000` (server.js lines 185, 199, 203) with
NaN propagation. -/
def wattsToKwh (w : Option ℚ) : Option ℚ :=
  w.map fun x => x * hourFraction / 1000

/-- The raw row with every numeric column allowed to hold a malformed
(non-numeric) cell: `none` is a value whose `Number` coercion is NaN.
The server never parses these three columns — it only compares,
multiplies, subtracts and divides them, operations under which a
numeric string behaves as its coercion and a non-numeric one as NaN —
so `Option ℚ` captures every use.  `processRowDataJS` below is the
same translation of server.js lines 37-236 over this wider domain,
and `processRowDataJS_toJS` proves it agrees with `processRowData`
on fully numeric rows. -/
structure RawRowJS where
  timestamp : String
  is_daytime : Bool
  solar_input_watts : Option ℚ
  grid_status : String
  household_power_demand_watts : Option ℚ
  heavy_appliance_active : Bool
  ambient_temperature_celsius : Option ℚ
  weather_condition : String
  battery_percent : BatVal
deriving DecidableEq, Repr

/-- `classifyPowerSource` (server.js lines 64-113) over rows with
possibly-malformed numeric cells: `solar_input_watts >=
household_power_demand_watts` is false whenever either side is NaN. -/
def classifyPowerSourceJS (r : RawRowJS) : Option PowerSource × List Alert :=
  if r.is_daytime then
    if r.grid_status == "normal" then
      if jsLe r.household_power_demand_watts r.solar_input_watts then
        (some .Solar, [])
      else
        (some .SolarGrid, [])
    else if gridDegraded r.grid_status then
      let base :=
        if jsLe r.household_power_demand_watts r.solar_input_watts then
          (some PowerSource.Solar, [Alert.gridUnavailableSolarOnly])
        else
          (some PowerSource.SolarBattery, [Alert.poweringFromBattery])
      (base.1, base.2 ++ if r.heavy_appliance_active then [Alert.heavyOnSolarBackup] else [])
    else
      (none, [])
  else
    if r.grid_status == "normal" then
      (some .Grid, [])
    else if gridDegraded r.grid_status then
      (some .Battery,
        [Alert.switchedToBattery] ++
          if r.heavy_appliance_active then [Alert.heavyOnBatteryBackup] else [])
    else
      (none, [])

/-- The battery-action cascade (server.js lines 141-173) over rows
with possibly-malformed numeric cells. -/
def decideBatteryActionJS (r : RawRowJS) (ps : Option PowerSource) (bp : BatVal)
    (last : Option BatteryAction) (cycles : ℕ) : BatteryAction × ℕ :=
  if ps = some .Battery ∨ ps = some .SolarBattery then
    (.Discharging, if last ≠ some .Discharging then cycles + 1 else cycles)
  else if r.is_daytime ∧ jsLt r.household_power_demand_watts r.solar_input_watts ∧ bvLt bp 100 then
    (.Charging, cycles)
  else if r.grid_status == "normal" ∧ bvLt bp 100 then
    (.Charging, cycles)
  else if gridDegraded r.grid_status ∧ bvGt bp 28 then
    (.Discharging, cycles)
  else
    (.Idle, cycles)

/-- The backup-time estimate (server.js lines 211-218) when the demand
cell itself may be malformed: `NaN > 0` is false, so a NaN load skips
the assignment and the estimate silently stays 0. -/
def backupTimeJS (bp : BatVal) (demand : Option ℚ) : Option ℚ :=
  match demand with
  | some d =>
      if 0 < d / 1000 then
        match bp.toNum with
        | some q => some (q / 100 * 10 / (d / 1000))
        | none => none
      else
        some 0
  | none => some 0

/-- The processed row over the wider domain: the kWh fields may be NaN
(`none`) when a malformed cell flowed into their arithmetic. -/
structure ProcessedRowJS where
  raw : RawRowJS
  power_source : Option PowerSource
  battery_action : BatteryAction
  battery_efficiency : ℚ
  solar_contribution : Option ℚ
  grid_contribution : Option ℚ
  battery_contribution : Option ℚ
  total_consumption_kwh : Option ℚ
  estimated_battery_backup_time : Option ℚ
  alerts : List Alert
  discharge_cycles : ℕ
deriving DecidableEq, Repr

/-- `processRowData` (server.js lines 37-236) over rows whose numeric
cells may be malformed, with JavaScript NaN semantics throughout. -/
def processRowDataJS (r : RawRowJS) (s : SessionState) : ProcessedRowJS × SessionState :=
  let psa := classifyPowerSourceJS r
  let bp := normalizeBattery r.battery_percent
  let alerts := psa.2 ++ (if bvLt bp 28 then [Alert.batteryLow bp] else [])
  let ac := decideBatteryActionJS r psa.1 bp s.lastBatteryAction s.batteryDischargeCycles
  let battery_efficiency : ℚ := 100 - (ac.2 : ℚ) * (2 / 10)
  let total := wattsToKwh r.household_power_demand_watts
  let contrib : Option ℚ × Option ℚ × Option ℚ :=
    match psa.1 with
    | some .Solar => (total, some 0, some 0)
    | some .Grid => (some 0, total, some 0)
    | some .SolarGrid =>
        (wattsToKwh r.solar_input_watts,
         jsSub total (wattsToKwh r.solar_input_watts), some 0)
    | some .SolarBattery =>
        (wattsToKwh r.solar_input_watts, some 0,
         jsSub total (wattsToKwh r.solar_input_watts))
    | some .Battery => (some 0, some 0, total)
    | none => (some 0, some 0, some 0)
  (⟨r, psa.1, ac.1, battery_efficiency, contrib.1, contrib.2.1, contrib.2.2, total,
      backupTimeJS bp r.household_power_demand_watts, alerts, ac.2⟩,
   { s with batteryDischargeCycles := ac.2, lastBatteryAction := some ac.1 })

/-- A fully numeric row viewed inside the wider domain. -/
def RawRow.toJS (r : RawRow) : RawRowJS :=
  ⟨r.timestamp, r.is_daytime, some r.solar_input_watts, r.grid_status,
   some r.household_power_demand_watts, r.heavy_appliance_active,
   some r.ambient_temperature_celsius, r.weather_condition, r.battery_percent⟩

/-! ### Helper lemmas shared by the claim theorems -/

theorem batSourced_iff (ps : Option PowerSource) :
    batSourced ps = true ↔ (ps = some .Battery ∨ ps = some .SolarBattery) := by
  cases ps with
  | none => simp [batSourced]
  | some v => cases v <;> simp [batSourced]

theorem decideBatteryAction_cycles (r : RawRow) (ps : Option PowerSource) (bp : BatVal)
    (last : Option BatteryAction) (c : ℕ) :
    (decideBatteryAction r ps bp last c).2 =
      c + (if batSourced ps = true ∧ last ≠ some .Discharging then 1 else 0) := by
  unfold decideBatteryAction
  by_cases h : ps = some .Battery ∨ ps = some .SolarBattery
  · rw [if_pos h]
    have hb : batSourced ps = true := (batSourced_iff ps).mpr h
    by_cases hl : last ≠ some BatteryAction.Discharging
    · simp [hb, hl]
    · simp [hl]
  · rw [if_neg h]
    have hb : ¬ batSourced ps = true := fun hc => h ((batSourced_iff ps).mp hc)
    simp only [hb, false_and, if_false]
    split <;> try rfl
    split <;> try rfl
    split <;> rfl

theorem decideBatteryAction_discharging_of_batSourced (r : RawRow) (ps : Option PowerSource)
    (bp : BatVal) (last : Option BatteryAction) (c : ℕ) (h : batSourced ps = true) :
    (decideBatteryAction r ps bp last c).1 = .Discharging := by
  unfold decideBatteryAction
  rw [if_pos ((batSourced_iff ps).mp h)]

theorem processRowData_power_source (r : RawRow) (s : SessionState) :
    (processRowData r s).1.power_source = (classifyPowerSource r).1 := rfl

theorem processRowData_discharge_cycles_eq (r : RawRow) (s : SessionState) :
    (processRowData r s).1.discharge_cycles = (processRowData r s).2.batteryDischargeCycles := rfl

theorem processRowData_last (r : RawRow) (s : SessionState) :
    (processRowData r s).2.lastBatteryAction = some (processRowData r s).1.battery_action := rfl

theorem processRowData_cursor (r : RawRow) (s : SessionState) :
    (processRowData r s).2.currentRowIndex = s.currentRowIndex := rfl

theorem processRowData_efficiency (r : RawRow) (s : SessionState) :
    (processRowData r s).1.battery_efficiency =
      100 - ((processRowData r s).2.batteryDischargeCycles : ℚ) * (2 / 10) := rfl

theorem processRowData_cycles (r : RawRow) (s : SessionState) :
    (processRowData r s).2.batteryDischargeCycles =
      s.batteryDischargeCycles +
        (if batSourced (processRowData r s).1.power_source = true ∧
            s.lastBatteryAction ≠ some .Discharging then 1 else 0) := by
  have h := decideBatteryAction_cycles r (classifyPowerSource r).1
    (normalizeBattery r.battery_percent) s.lastBatteryAction s.batteryDischargeCycles
  exact h

theorem processRowData_discharging_of_batSourced (r : RawRow) (s : SessionState)
    (h : batSourced (processRowData r s).1.power_source = true) :
    (processRowData r s).1.battery_action = .Discharging :=
  decideBatteryAction_discharging_of_batSourced r (classifyPowerSource r).1
    (normalizeBattery r.battery_percent) s.lastBatteryAction s.batteryDischargeCycles h

theorem processRowData_cycles_le (r : RawRow) (s : SessionState) :
    s.batteryDischargeCycles ≤ (processRowData r s).2.batteryDischargeCycles := by
  rw [processRowData_cycles]
  exact Nat.le_add_right _ _

theorem processRows_cycles (rows : List RawRow) (s : SessionState) :
    (processRows rows s).2.batteryDischargeCycles =
      s.batteryDischargeCycles +
        countBatRunStarts s.lastBatteryAction
          ((processRows rows s).1.map fun p => (p.battery_action, batSourced p.power_source)) := by
  induction rows generalizing s with
  | nil => simp [processRows, countBatRunStarts]
  | cons r rest ih =>
      have hstep := processRowData_cycles r s
      have hact : ((processRowData r s).1.battery_action = BatteryAction.Discharging ∧
            s.lastBatteryAction ≠ some BatteryAction.Discharging ∧
            batSourced (processRowData r s).1.power_source = true) ↔
          (batSourced (processRowData r s).1.power_source = true ∧
            s.lastBatteryAction ≠ some BatteryAction.Discharging) := by
        constructor
        · rintro ⟨_, hl, hb⟩; exact ⟨hb, hl⟩
        · rintro ⟨hb, hl⟩
          exact ⟨processRowData_discharging_of_batSourced r s hb, hl, hb⟩
      show (processRows rest (processRowData r s).2).2.batteryDischargeCycles = _
      rw [ih ((processRowData r s).2)]
      simp only [processRows, List.map_cons, countBatRunStarts]
      rw [processRowData_last, hstep]
      have hif : (if (processRowData r s).1.battery_action = BatteryAction.Discharging ∧
            s.lastBatteryAction ≠ some BatteryAction.Discharging ∧
            batSourced (processRowData r s).1.power_source = true then 1 else 0) =
          (if batSourced (processRowData r s).1.power_source = true ∧
            s.lastBatteryAction ≠ some BatteryAction.Discharging then 1 else 0) := by
        by_cases h : batSourced (processRowData r s).1.power_source = true ∧
            s.lastBatteryAction ≠ some BatteryAction.Discharging
        · rw [if_pos (hact.mpr h), if_pos h]
        · rw [if_neg (fun hc => h (hact.mp hc)), if_neg h]
      omega

theorem processRows_cycles_le (rows : List RawRow) (s : SessionState) :
    s.batteryDischargeCycles ≤ (processRows rows s).2.batteryDischargeCycles := by
  induction rows generalizing s with
  | nil => exact Nat.le_refl _
  | cons r rest ih =>
      exact Nat.le_trans (processRowData_cycles_le r s) (ih ((processRowData r s).2))

theorem processRows_efficiency_bound (rows : List RawRow) (s : SessionState) :
    ∀ p ∈ (processRows rows s).1,
      p.battery_efficiency ≤ 100 - (s.batteryDischargeCycles : ℚ) * (2 / 10) := by
  induction rows generalizing s with
  | nil => intro p hp; simp [processRows] at hp
  | cons r rest ih =>
      intro p hp
      rcases List.mem_cons.mp hp with h | h
      · subst h
        rw [processRowData_efficiency]
        have : (s.batteryDischargeCycles : ℚ) ≤
            ((processRowData r s).2.batteryDischargeCycles : ℚ) := by
          exact_mod_cast processRowData_cycles_le r s
        have h2 : (0 : ℚ) ≤ 2 / 10 := by norm_num
        nlinarith
      · have := ih ((processRowData r s).2) p h
        have hc : (s.batteryDischargeCycles : ℚ) ≤
            ((processRowData r s).2.batteryDischargeCycles : ℚ) := by
          exact_mod_cast processRowData_cycles_le r s
        nlinarith

theorem processRows_efficiency_pairwise (rows : List RawRow) (s : SessionState) :
    List.Pairwise (fun a b => b.battery_efficiency ≤ a.battery_efficiency)
      (processRows rows s).1 := by
  induction rows generalizing s with
  | nil => simp [processRows]
  | cons r rest ih =>
      refine List.Pairwise.cons ?_ (ih ((processRowData r s).2))
      intro b hb
      have hbound := processRows_efficiency_bound rest ((processRowData r s).2) b hb
      rw [processRowData_efficiency]
      exact hbound

theorem classifyPowerSource_no_batteryLow (r : RawRow) (v : BatVal) :
    Alert.batteryLow v ∉ (classifyPowerSource r).2 := by
  unfold classifyPowerSource
  split
  · split
    · split <;> simp
    · split
      · split <;> split <;> simp
      · simp
  · split
    · simp
    · split
      · split <;> simp
      · simp

theorem advance_cursor_lt (data : List RawRow) (s : SessionState)
    (h : s.currentRowIndex < data.length) :
    (advance data s).1.currentRowIndex = s.currentRowIndex + 1 := by
  unfold advance
  rw [dif_pos h]

theorem advance_done (data : List RawRow) (s : SessionState)
    (h : data.length ≤ s.currentRowIndex) :
    advance data s = (s, none) := by
  unfold advance
  rw [dif_neg (Nat.not_lt.mpr h)]

theorem iterateAdvance_cursor (data : List RawRow) (k : ℕ) (s : SessionState)
    (h : s.currentRowIndex ≤ data.length) :
    (iterateAdvance data k s).currentRowIndex = min (s.currentRowIndex + k) data.length := by
  induction k generalizing s with
  | zero =>
      simp [iterateAdvance, Nat.min_eq_left h]
  | succ k ih =>
      show (iterateAdvance data k (advance data s).1).currentRowIndex = _
      by_cases hlt : s.currentRowIndex < data.length
      · have hc := advance_cursor_lt data s hlt
        have h1 : (advance data s).1.currentRowIndex ≤ data.length := by omega
        rw [ih (advance data s).1 h1, hc]
        omega
      · have heq : s.currentRowIndex = data.length := by omega
        rw [advance_done data s (Nat.not_lt.mp hlt)]
        rw [ih s h, heq]
        omega

/-! ### Claim theorems -/

/-- C1: the spec expects every nighttime row whose `grid_status` is a §3
degraded enum value (`power_off` / `voltage_fluctuation`) to get power
source Battery, a switched-to-battery alert, a heavy-appliance warning
when active, battery action Discharging, and a cycle increment iff the
previous action was not Discharging.  The server compares `grid_status`
against the spaced strings "power off" / "voltage fluctuation", while
the repository's client switches on the underscored spellings; on the
underscored value `power_off` no branch assigns a power source, no
alert is pushed, and the battery action falls through to Idle with no
increment.  The claimed behaviour appears only under the spaced
spelling, shown in the remaining conjuncts. -/
theorem c1_nighttime_degraded_enum_bug :
    (processRowData (mkRow false "power_off" 0 1000 true (.num 50)) initialState).1.power_source
        = none ∧
    (processRowData (mkRow false "power_off" 0 1000 true (.num 50)) initialState).1.battery_action
        = .Idle ∧
    (processRowData (mkRow false "power_off" 0 1000 true (.num 50)) initialState).1.alerts = [] ∧
    (processRowData (mkRow false "power_off" 0 1000 true
        (.num 50)) initialState).2.batteryDischargeCycles = 0 ∧
    (processRowData (mkRow false "power off" 0 1000 true (.num 50)) initialState).1.power_source
        = some .Battery ∧
    (processRowData (mkRow false "power off" 0 1000 true (.num 50)) initialState).1.battery_action
        = .Discharging ∧
    (processRowData (mkRow false "power off" 0 1000 true (.num 50)) initialState).1.alerts
        = [.switchedToBattery, .heavyOnBatteryBackup] ∧
    (processRowData (mkRow false "power off" 0 1000 true
        (.num 50)) initialState).2.batteryDischargeCycles = 1 ∧
    (processRowData (mkRow false "power off" 0 1000 true (.num 50))
        ⟨0, 0, some .Discharging⟩).2.batteryDischargeCycles = 0 := by
  decide

/-- C8: the spec claims loading a new dataset resets the entire
SessionState (cursor, dischargeCycles, lastBatteryAction) to its
initial values, never partially.  The upload handler resets only
`currentRowIndex` and `batteryDischargeCycles`: after a session whose
last processed row was discharging, the reset state still carries
`lastBatteryAction = some Discharging` while the initial value is
`none`, so the reset is partial. -/
theorem c8_upload_reset_partial :
    resetOnUpload (processRowData (mkRow false "voltage fluctuation" 0 800 false (.num 70))
        initialState).2 = ⟨0, 0, some .Discharging⟩ ∧
    initialState.lastBatteryAction = none ∧
    resetOnUpload (processRowData (mkRow false "voltage fluctuation" 0 800 false (.num 70))
        initialState).2 ≠ initialState := by
  decide

/-- C2 counterexample: a `battery_percent` supplied as the number 0.15
is numerically less than 1 but is not multiplied by 100 (only string
values are parsed and scaled); the low-battery alert then reports the
level 0.15, not 15. -/
theorem c2_numeric_fraction_counterexample :
    (processRowData (mkRow true "normal" 3000 2000 false (.num (3 / 20))) initialState).1.alerts
        = [.batteryLow (.num (3 / 20))] ∧
    Alert.batteryLow (.num 15) ∉
      (processRowData (mkRow true "normal" 3000 2000 false (.num (3 / 20))) initialState).1.alerts ∧
    normalizeBattery (.num (3 / 20)) = .num (3 / 20) := by
  refine ⟨?_, ?_, ?_⟩ <;>
    norm_num [processRowData, classifyPowerSource, decideBatteryAction, normalizeBattery,
      backupTime, bvLt, bvGt, BatVal.toNum, gridDegraded, mkRow, initialState]

/-- C3 counterexample: a daytime row with a degraded grid, solar output
exactly covering demand and battery at 50% gets battery action
Discharging through the fourth branch while the previous action was
not Discharging, yet `batteryDischargeCycles` is not incremented. -/
theorem c3_rule_d_no_increment_counterexample :
    (processRowData (mkRow true "power off" 1000 1000 false (.num 50))
        initialState).1.battery_action = .Discharging ∧
    initialState.lastBatteryAction ≠ some .Discharging ∧
    (processRowData (mkRow true "power off" 1000 1000 false (.num 50))
        initialState).2.batteryDischargeCycles = initialState.batteryDischargeCycles := by
  decide

/-- C4 counterexample: battery-action rule (d) does fire.  On a daytime
row with a degraded grid, solar output exactly equal to demand and
battery at 60%, the power source is Solar (so rule (a) did not match),
rules (b) and (c) fail, rule (d)'s guard holds, and the resulting
action is Discharging. -/
theorem c4_rule_d_fires_counterexample :
    (processRowData (mkRow true "voltage fluctuation" 1500 1500 false (.num 60))
        initialState).1.power_source = some .Solar ∧
    (processRowData (mkRow true "voltage fluctuation" 1500 1500 false (.num 60))
        initialState).1.battery_action = .Discharging ∧
    gridDegraded "voltage fluctuation" = true ∧
    bvGt (normalizeBattery (.num 60)) 28 = true := by
  decide

/-- C2 (amended): battery-percent normalization applies only to string
values: a string whose `parseFloat` reading is a fraction `p < 1` is
replaced by the number `100 * p` before every later use of the value,
and when `100 * p < 28` the low-battery alert reports the scaled
level; a numeric `battery_percent` is used exactly as supplied. -/
theorem c2_normalization_only_for_strings :
    (∀ (r : RawRow) (s : SessionState) (p : ℚ) (nc : Option ℚ),
      r.battery_percent = .str (some p) nc → p < 1 →
        normalizeBattery r.battery_percent = .num (p * 100) ∧
        (p * 100 < 28 →
          (processRowData r s).1.alerts =
            (classifyPowerSource r).2 ++ [.batteryLow (.num (p * 100))])) ∧
    (∀ q : ℚ, normalizeBattery (.num q) = .num q) := by
  constructor
  · intro r s p nc hbp hp
    have hnorm : normalizeBattery r.battery_percent = .num (p * 100) := by
      rw [hbp]
      simp [normalizeBattery, hp]
    refine ⟨hnorm, fun h28 => ?_⟩
    show (classifyPowerSource r).2 ++
        (if bvLt (normalizeBattery r.battery_percent) 28 then
          [Alert.batteryLow (normalizeBattery r.battery_percent)] else []) = _
    rw [hnorm]
    simp [bvLt, BatVal.toNum, h28]
  · intro q
    rfl

/-- C2 witness: `battery_percent` supplied as the string "0.15"
(both numeric readings 3/20) is normalized to the number 15 and, since
15 < 28, the low-battery alert reports the level 15. -/
theorem c2_normalization_witness :
    normalizeBattery (mkRow true "normal" 3000 2000 false
        (.str (some (3 / 20)) (some (3 / 20)))).battery_percent = .num (3 / 20 * 100) ∧
    (3 / 20 * 100 < (28 : ℚ) →
      (processRowData (mkRow true "normal" 3000 2000 false
          (.str (some (3 / 20)) (some (3 / 20)))) initialState).1.alerts =
        (classifyPowerSource (mkRow true "normal" 3000 2000 false
          (.str (some (3 / 20)) (some (3 / 20))))).2 ++ [.batteryLow (.num (3 / 20 * 100))]) :=
  c2_normalization_only_for_strings.1
    (mkRow true "normal" 3000 2000 false (.str (some (3 / 20)) (some (3 / 20))))
    initialState (3 / 20) (some (3 / 20)) rfl (by norm_num)

/-- C3 (amended): the discharge-cycle counter increases by exactly 1
on each row whose power source is Battery or Solar+Battery while the
previous action was not Discharging — rows that reach Discharging
through fallback rule (d) never increment — and otherwise stays
unchanged, so it never decreases and never jumps by more than 1 per
row; after N advances in a freshly loaded session it equals the number
of maximal runs of Discharging actions starting within those N rows at
a battery-sourced row, counted relative to the session's initial
`lastBatteryAction`. -/
theorem c3_cycles_transition_counting :
    (∀ (r : RawRow) (s : SessionState),
      (processRowData r s).2.batteryDischargeCycles =
        s.batteryDischargeCycles +
          (if batSourced (processRowData r s).1.power_source = true ∧
              s.lastBatteryAction ≠ some .Discharging then 1 else 0)) ∧
    (∀ (rows : List RawRow) (l : Option BatteryAction),
      (processRows rows ⟨0, 0, l⟩).2.batteryDischargeCycles =
        countBatRunStarts l
          ((processRows rows ⟨0, 0, l⟩).1.map
            fun p => (p.battery_action, batSourced p.power_source))) := by
  constructor
  · exact processRowData_cycles
  · intro rows l
    have h := processRows_cycles rows ⟨0, 0, l⟩
    simpa using h

/-- Helper: when every numeric comparison against the battery value is
false, the cascade yields Discharging exactly on battery-sourced rows
and Idle on all others. -/
theorem decideBatteryAction_nan (r : RawRow) (ps : Option PowerSource) (bp : BatVal)
    (last : Option BatteryAction) (c : ℕ)
    (hlt : bvLt bp 100 = false) (hgt : bvGt bp 28 = false) :
    (decideBatteryAction r ps bp last c).1 =
      (if batSourced ps = true then .Discharging else .Idle) := by
  unfold decideBatteryAction
  by_cases h : ps = some .Battery ∨ ps = some .SolarBattery
  · rw [if_pos h, if_pos ((batSourced_iff ps).mpr h)]
  · have hb : ¬ batSourced ps = true := fun hc => h ((batSourced_iff ps).mp hc)
    rw [if_neg h, if_neg hb]
    simp [hlt, hgt]

/-- Helper: on a row whose `battery_percent` is a string with no
numeric reading, the alert list is exactly the power-source alerts. -/
theorem processRowData_nan_alerts (r : RawRow) (s : SessionState)
    (h : r.battery_percent = .str none none) :
    (processRowData r s).1.alerts = (classifyPowerSource r).2 := by
  show (classifyPowerSource r).2 ++
      (if bvLt (normalizeBattery r.battery_percent) 28 then
        [Alert.batteryLow (normalizeBattery r.battery_percent)] else []) = _
  rw [h]
  simp [normalizeBattery, bvLt, BatVal.toNum]

/-- C10: on a row whose `battery_percent` is a string that parses to
no number, classification still completes: no low-battery alert is
emitted, the action is never Charging, and it is Discharging exactly
when the power source is Battery or Solar+Battery, Idle otherwise,
because every numeric comparison against the unparsed value is
false. -/
theorem c10_unparsable_battery_actions :
    ∀ (r : RawRow) (s : SessionState), r.battery_percent = .str none none →
      (∀ v, Alert.batteryLow v ∉ (processRowData r s).1.alerts) ∧
      (processRowData r s).1.battery_action ≠ .Charging ∧
      (processRowData r s).1.battery_action =
        (if batSourced (processRowData r s).1.power_source = true then .Discharging
         else .Idle) := by
  intro r s h
  have hbp : normalizeBattery r.battery_percent = .str none none := by
    rw [h]
    rfl
  have hlt : bvLt (normalizeBattery r.battery_percent) 100 = false := by
    rw [hbp]
    rfl
  have hgt : bvGt (normalizeBattery r.battery_percent) 28 = false := by
    rw [hbp]
    rfl
  have hact : (processRowData r s).1.battery_action =
      (if batSourced (classifyPowerSource r).1 = true then BatteryAction.Discharging
       else BatteryAction.Idle) :=
    decideBatteryAction_nan r (classifyPowerSource r).1 (normalizeBattery r.battery_percent)
      s.lastBatteryAction s.batteryDischargeCycles hlt hgt
  refine ⟨?_, ?_, hact⟩
  · intro v
    rw [processRowData_nan_alerts r s h]
    exact classifyPowerSource_no_batteryLow r v
  · rw [hact]
    split <;> simp

/-- C10 witness: a nighttime row with a degraded grid (the server's
spaced spelling) and an unparsable `battery_percent` gets power source
Battery, hence action Discharging, with no low-battery alert. -/
theorem c10_unparsable_witness :
    (∀ v, Alert.batteryLow v ∉
      (processRowData (mkRow false "voltage fluctuation" 0 500 false (.str none none))
        initialState).1.alerts) ∧
    (processRowData (mkRow false "voltage fluctuation" 0 500 false (.str none none))
        initialState).1.battery_action ≠ .Charging ∧
    (processRowData (mkRow false "voltage fluctuation" 0 500 false (.str none none))
        initialState).1.battery_action =
      (if batSourced (processRowData (mkRow false "voltage fluctuation" 0 500 false
          (.str none none)) initialState).1.power_source = true then .Discharging
       else .Idle) :=
  c10_unparsable_battery_actions
    (mkRow false "voltage fluctuation" 0 500 false (.str none none)) initialState rfl

/-- Agreement on numeric rows: the wider-domain classifier coincides
with the rational one. -/
theorem classifyPowerSourceJS_toJS (r : RawRow) :
    classifyPowerSourceJS r.toJS = classifyPowerSource r := by
  unfold classifyPowerSourceJS classifyPowerSource RawRow.toJS
  by_cases hle : r.household_power_demand_watts ≤ r.solar_input_watts <;>
    simp [jsLe, hle]

/-- Agreement on numeric rows: the wider-domain cascade coincides with
the rational one. -/
theorem decideBatteryActionJS_toJS (r : RawRow) (ps : Option PowerSource) (bp : BatVal)
    (last : Option BatteryAction) (c : ℕ) :
    decideBatteryActionJS r.toJS ps bp last c = decideBatteryAction r ps bp last c := by
  unfold decideBatteryActionJS decideBatteryAction RawRow.toJS
  by_cases hlt : r.household_power_demand_watts < r.solar_input_watts <;>
    simp [jsLt, hlt]

/-- Agreement on numeric rows: on a fully numeric row the wider-domain
`processRowDataJS` produces the same classification, action, alerts,
efficiency and state as `processRowData`, with the kWh fields wrapped
in `some`. -/
theorem processRowDataJS_toJS (r : RawRow) (s : SessionState) :
    (processRowDataJS r.toJS s).1.power_source = (processRowData r s).1.power_source ∧
    (processRowDataJS r.toJS s).1.battery_action = (processRowData r s).1.battery_action ∧
    (processRowDataJS r.toJS s).1.alerts = (processRowData r s).1.alerts ∧
    (processRowDataJS r.toJS s).1.battery_efficiency =
      (processRowData r s).1.battery_efficiency ∧
    (processRowDataJS r.toJS s).1.total_consumption_kwh =
      some (processRowData r s).1.total_consumption_kwh ∧
    (processRowDataJS r.toJS s).1.solar_contribution =
      some (processRowData r s).1.solar_contribution ∧
    (processRowDataJS r.toJS s).1.grid_contribution =
      some (processRowData r s).1.grid_contribution ∧
    (processRowDataJS r.toJS s).1.battery_contribution =
      some (processRowData r s).1.battery_contribution ∧
    (processRowDataJS r.toJS s).1.estimated_battery_backup_time =
      (processRowData r s).1.estimated_battery_backup_time ∧
    (processRowDataJS r.toJS s).2 = (processRowData r s).2 := by
  have hcl := classifyPowerSourceJS_toJS r
  have hba := decideBatteryActionJS_toJS r (classifyPowerSource r).1
    (normalizeBattery r.battery_percent) s.lastBatteryAction s.batteryDischargeCycles
  have hdm : r.toJS.household_power_demand_watts = some r.household_power_demand_watts := rfl
  have hsl : r.toJS.solar_input_watts = some r.solar_input_watts := rfl
  have hbt : r.toJS.battery_percent = r.battery_percent := rfl
  rcases hps : (classifyPowerSource r).1 with _ | v
  · rw [hps] at hba
    simp [processRowDataJS, processRowData, hcl, hps, hba, hdm, hsl, hbt, wattsToKwh,
      jsSub, backupTimeJS, backupTime]
  · rw [hps] at hba
    cases v <;>
      simp [processRowDataJS, processRowData, hcl, hps, hba, hdm, hsl, hbt, wattsToKwh,
        jsSub, backupTimeJS, backupTime]

/-- Helper: a grid status matched by the degraded tests is not the
string "normal". -/
theorem gridDegraded_not_normal (g : String) (h : gridDegraded g = true) :
    (g == "normal") = false := by
  have h' : g = "power off" ∨ g = "voltage fluctuation" := by
    simpa [gridDegraded] using h
  rcases h' with h1 | h1 <;> subst h1 <;> decide

/-- Helper: under a degraded grid, a row whose assigned power source is
not battery-backed must be a daytime row with solar covering demand,
classified Solar. -/
theorem classify_degraded_not_sourced (r : RawRow)
    (hdeg : gridDegraded r.grid_status = true)
    (hns : batSourced (classifyPowerSource r).1 = false) :
    r.is_daytime = true ∧ r.household_power_demand_watts ≤ r.solar_input_watts ∧
      (classifyPowerSource r).1 = some .Solar := by
  have hnn := gridDegraded_not_normal r.grid_status hdeg
  cases hd : r.is_daytime with
  | false =>
      exfalso
      unfold classifyPowerSource at hns
      rw [hd] at hns
      simp [hnn, hdeg, batSourced] at hns
  | true =>
      by_cases hle : r.household_power_demand_watts ≤ r.solar_input_watts
      · refine ⟨rfl, hle, ?_⟩
        unfold classifyPowerSource
        simp [hd, hnn, hdeg, hle]
      · exfalso
        unfold classifyPowerSource at hns
        rw [hd] at hns
        simp [hnn, hdeg, hle, batSourced] at hns

/-- Helper: daytime with a degraded grid and solar covering demand is
classified Solar. -/
theorem classify_daytime_degraded_covered (r : RawRow)
    (hd : r.is_daytime = true) (hdeg : gridDegraded r.grid_status = true)
    (hle : r.household_power_demand_watts ≤ r.solar_input_watts) :
    (classifyPowerSource r).1 = some .Solar := by
  have hnn := gridDegraded_not_normal r.grid_status hdeg
  unfold classifyPowerSource
  simp [hd, hnn, hdeg, hle]

/-- Helper: for a row whose power source is not battery-backed, the
cascade returns Discharging exactly when the charging branches (b) and
(c) fail and the fallback guard (degraded grid, battery above 28)
holds. -/
theorem decideBatteryAction_discharging_unsourced (r : RawRow) (ps : Option PowerSource)
    (bp : BatVal) (last : Option BatteryAction) (c : ℕ)
    (hns : batSourced ps = false) :
    ((decideBatteryAction r ps bp last c).1 = .Discharging ↔
      (¬(r.is_daytime = true ∧ r.household_power_demand_watts < r.solar_input_watts ∧
          bvLt bp 100 = true) ∧
        ¬((r.grid_status == "normal") = true ∧ bvLt bp 100 = true) ∧
        gridDegraded r.grid_status = true ∧ bvGt bp 28 = true)) := by
  have h1 : ¬(ps = some .Battery ∨ ps = some .SolarBattery) := by
    intro hc
    rw [(batSourced_iff ps).mpr hc] at hns
    exact Bool.noConfusion hns
  unfold decideBatteryAction
  rw [if_neg h1]
  split_ifs with h2 h3 h4
  · constructor
    · intro hx
      simp at hx
    · rintro ⟨hn2, -, -, -⟩
      exact absurd h2 hn2
  · constructor
    · intro hx
      simp at hx
    · rintro ⟨-, hn3, -, -⟩
      exact absurd h3 hn3
  · constructor
    · intro _
      exact ⟨h2, h3, h4.1, h4.2⟩
    · intro _
      rfl
  · constructor
    · intro hx
      simp at hx
    · rintro ⟨-, -, hdeg, hgt⟩
      exact absurd ⟨hdeg, hgt⟩ h4

/-- C4 (amended): battery-action rule (d) is not dead logic.  For any
row and session state, the action is Discharging with a power source
other than Battery / Solar+Battery — which only rule (d) can produce —
exactly when the row is daytime, the grid status matches the server's
degraded tests, solar covers demand (so the power source is Solar),
the normalized battery value exceeds 28, and rule (b) fails (solar
does not strictly exceed demand, or the battery is not below 100).
In particular rule (d) fires on daytime degraded rows where solar
output exactly equals demand; at night rule (a) always preempts it. -/
theorem c4_rule_d_characterization :
    ∀ (r : RawRow) (s : SessionState),
      ((processRowData r s).1.battery_action = .Discharging ∧
        batSourced (processRowData r s).1.power_source = false) ↔
      (r.is_daytime = true ∧ gridDegraded r.grid_status = true ∧
        r.household_power_demand_watts ≤ r.solar_input_watts ∧
        bvGt (normalizeBattery r.battery_percent) 28 = true ∧
        ¬(r.household_power_demand_watts < r.solar_input_watts ∧
          bvLt (normalizeBattery r.battery_percent) 100 = true)) := by
  intro r s
  constructor
  · rintro ⟨ha, hb⟩
    have hps : batSourced (classifyPowerSource r).1 = false := hb
    have hchar := (decideBatteryAction_discharging_unsourced r (classifyPowerSource r).1
      (normalizeBattery r.battery_percent) s.lastBatteryAction s.batteryDischargeCycles hps).mp ha
    obtain ⟨hn2, hn3, hdeg, hgt⟩ := hchar
    obtain ⟨hd, hle, -⟩ := classify_degraded_not_sourced r hdeg hps
    exact ⟨hd, hdeg, hle, hgt, fun hx => hn2 ⟨hd, hx.1, hx.2⟩⟩
  · rintro ⟨hd, hdeg, hle, hgt, hnb⟩
    have hsolar := classify_daytime_degraded_covered r hd hdeg hle
    have hps : batSourced (classifyPowerSource r).1 = false := by
      rw [hsolar]
      rfl
    have hnn := gridDegraded_not_normal r.grid_status hdeg
    refine ⟨?_, hps⟩
    refine (decideBatteryAction_discharging_unsourced r (classifyPowerSource r).1
      (normalizeBattery r.battery_percent) s.lastBatteryAction
      s.batteryDischargeCycles hps).mpr ⟨?_, ?_, hdeg, hgt⟩
    · rintro ⟨-, hlt', h100⟩
      exact hnb ⟨hlt', h100⟩
    · rintro ⟨hno, -⟩
      rw [hnn] at hno
      exact Bool.noConfusion hno

/-- C4 witness: rule (d) fires at a concrete daytime row with a
degraded grid, solar output exactly equal to demand and a 90% battery:
the action is Discharging while the power source is not
battery-backed. -/
theorem c4_rule_d_witness :
    (processRowData (mkRow true "power off" 2000 2000 false (.num 90))
        initialState).1.battery_action = .Discharging ∧
    batSourced (processRowData (mkRow true "power off" 2000 2000 false (.num 90))
        initialState).1.power_source = false :=
  (c4_rule_d_characterization (mkRow true "power off" 2000 2000 false (.num 90))
      initialState).mpr
    ⟨rfl, by decide, by decide, by decide, by decide⟩

/-- C5: every annotated row's battery efficiency equals
`100 − 0.2 × dischargeCycles(i)` where `dischargeCycles(i)` is the
counter value after the row's battery-action update (the snapshot
stored in the row), the efficiency sequence of a session is
non-increasing, and the value is not clamped at zero: a state with 501
recorded cycles yields a negative efficiency. -/
theorem c5_battery_efficiency_formula :
    (∀ (r : RawRow) (s : SessionState),
      (processRowData r s).1.battery_efficiency =
        100 - ((processRowData r s).1.discharge_cycles : ℚ) * (2 / 10) ∧
      (processRowData r s).1.discharge_cycles = (processRowData r s).2.batteryDischargeCycles) ∧
    (∀ (rows : List RawRow) (s : SessionState),
      List.Pairwise (fun a b => b.battery_efficiency ≤ a.battery_efficiency)
        (processRows rows s).1) ∧
    (∃ (r : RawRow) (s : SessionState), (processRowData r s).1.battery_efficiency < 0) := by
  refine ⟨fun r s => ⟨processRowData_efficiency r s, rfl⟩,
    processRows_efficiency_pairwise, ?_⟩
  refine ⟨mkRow true "normal" 500 800 false (.num 50), ⟨0, 501, some .Charging⟩, ?_⟩
  have hc : (processRowData (mkRow true "normal" 500 800 false (.num 50))
      ⟨0, 501, some .Charging⟩).2.batteryDischargeCycles = 501 := by
    decide
  rw [processRowData_efficiency, hc]
  norm_num

/-- C6: for every row that receives one of the five power-source
labels, the three energy contributions sum exactly to the total
consumption, which is `demand × (20/3600) / 1000` kWh (the fixed
20-second slice) — including the Solar+Grid / Solar+Battery cases
where the remainder contribution may be negative. -/
theorem c6_contribution_sum :
    ∀ (r : RawRow) (s : SessionState) (v : PowerSource),
      (processRowData r s).1.power_source = some v →
        (processRowData r s).1.solar_contribution +
            (processRowData r s).1.grid_contribution +
            (processRowData r s).1.battery_contribution =
          (processRowData r s).1.total_consumption_kwh ∧
        (processRowData r s).1.total_consumption_kwh =
          r.household_power_demand_watts * (20 / 3600) / 1000 := by
  intro r s v h
  have hps : (classifyPowerSource r).1 = some v := h
  constructor
  · simp only [processRowData]
    rw [hps]
    cases v <;> simp
  · rfl

/-- C6 witness: the contribution identity at a concrete daytime row
classified Solar. -/
theorem c6_contribution_sum_witness :
    (processRowData (mkRow true "normal" 3000 2000 false (.num 80))
          initialState).1.solar_contribution +
        (processRowData (mkRow true "normal" 3000 2000 false (.num 80))
          initialState).1.grid_contribution +
        (processRowData (mkRow true "normal" 3000 2000 false (.num 80))
          initialState).1.battery_contribution =
      (processRowData (mkRow true "normal" 3000 2000 false (.num 80))
        initialState).1.total_consumption_kwh ∧
    (processRowData (mkRow true "normal" 3000 2000 false (.num 80))
        initialState).1.total_consumption_kwh = 2000 * (20 / 3600) / 1000 :=
  c6_contribution_sum (mkRow true "normal" 3000 2000 false (.num 80)) initialState
    .Solar (by decide)

/-- C7: starting from a freshly loaded session, the cursor after K
advance calls equals `min K L` for a dataset of length L; once the
cursor has reached L an advance reports done, produces no row and
leaves the whole session state unchanged, so further advances are
idempotent. -/
theorem c7_cursor_min_and_done_idempotent :
    (∀ (data : List RawRow) (k c : ℕ) (l : Option BatteryAction),
      (iterateAdvance data k ⟨0, c, l⟩).currentRowIndex = min k data.length) ∧
    (∀ (data : List RawRow) (s : SessionState),
      data.length ≤ s.currentRowIndex → advance data s = (s, none)) := by
  constructor
  · intro data k c l
    have h := iterateAdvance_cursor data k ⟨0, c, l⟩ (Nat.zero_le _)
    simpa using h
  · exact advance_done

/-- C7 witness: on a one-row dataset, three advances leave the cursor
at `min 3 1 = 1`, and an advance from an exhausted state is the
identity, reporting done. -/
theorem c7_cursor_witness :
    (iterateAdvance [mkRow false "normal" 0 700 false (.num 40)] 3
        ⟨0, 2, none⟩).currentRowIndex =
      min 3 [mkRow false "normal" 0 700 false (.num 40)].length ∧
    advance [mkRow false "normal" 0 700 false (.num 40)] ⟨1, 5, some .Discharging⟩ =
      (⟨1, 5, some .Discharging⟩, none) :=
  ⟨c7_cursor_min_and_done_idempotent.1 [mkRow false "normal" 0 700 false (.num 40)] 3 2 none,
   c7_cursor_min_and_done_idempotent.2 [mkRow false "normal" 0 700 false (.num 40)]
     ⟨1, 5, some .Discharging⟩ (by decide)⟩

/-- C3 witness: the per-row counting law instantiated at a concrete
nighttime degraded row (battery-sourced, previous action not
Discharging, so the counter steps by one), and the cumulative law at
the one-row dataset containing it. -/
theorem c3_cycles_witness :
    (processRowData (mkRow false "power off" 300 300 false (.num 40))
        initialState).2.batteryDischargeCycles =
      initialState.batteryDischargeCycles +
        (if batSourced (processRowData (mkRow false "power off" 300 300 false (.num 40))
              initialState).1.power_source = true ∧
            initialState.lastBatteryAction ≠ some .Discharging then 1 else 0) ∧
    (processRows [mkRow false "power off" 300 300 false (.num 40)]
        ⟨0, 0, none⟩).2.batteryDischargeCycles =
      countBatRunStarts none
        ((processRows [mkRow false "power off" 300 300 false (.num 40)] ⟨0, 0, none⟩).1.map
          fun p => (p.battery_action, batSourced p.power_source)) :=
  ⟨c3_cycles_transition_counting.1 (mkRow false "power off" 300 300 false (.num 40))
      initialState,
   c3_cycles_transition_counting.2 [mkRow false "power off" 300 300 false (.num 40)] none⟩

/-- C5 witness: the efficiency formula and snapshot law instantiated
at a concrete row, and the monotonicity law at a concrete two-row
dataset. -/
theorem c5_efficiency_witness :
    ((processRowData (mkRow true "normal" 1200 900 false (.num 35))
        initialState).1.battery_efficiency =
      100 - ((processRowData (mkRow true "normal" 1200 900 false (.num 35))
        initialState).1.discharge_cycles : ℚ) * (2 / 10) ∧
    (processRowData (mkRow true "normal" 1200 900 false (.num 35))
        initialState).1.discharge_cycles =
      (processRowData (mkRow true "normal" 1200 900 false (.num 35))
        initialState).2.batteryDischargeCycles) ∧
    List.Pairwise (fun a b => b.battery_efficiency ≤ a.battery_efficiency)
      (processRows [mkRow true "normal" 1200 900 false (.num 35),
        mkRow false "voltage fluctuation" 0 600 false (.num 90)] initialState).1 :=
  ⟨c5_battery_efficiency_formula.1 (mkRow true "normal" 1200 900 false (.num 35))
      initialState,
   c5_battery_efficiency_formula.2.1 [mkRow true "normal" 1200 900 false (.num 35),
      mkRow false "voltage fluctuation" 0 600 false (.num 90)] initialState⟩

end GridManagement
